import Mathlib

/-!
Verification of the calculation core of the repository: the utility-bill
splitter (src/smart_bill_splitter.py), its summary ledger, its upload wizard
step machine, and the tenant-check agents (src/streamlit_multi_tenant_app_PROD+He.py
and src/multi.tenant.bg.check.he.py, whose agent classes are identical).

Numbers are embedded as exact rationals. Python float division by zero raises
ZeroDivisionError; fallible arithmetic is therefore embedded in Except, with
the error case standing for the raised exception.
-/

/- ===================== Utility-bill splitter ===================== -/

/-- Numeric fields of one utility bill, as produced by the OCR stubs at
src/smart_bill_splitter.py lines 40 and 44: fixed cost, total usage cost,
price per unit (price_per_kwh resp. price_per_m3) and VAT. -/
structure BillData where
  fixed_cost : ℚ
  total_usage_cost : ℚ
  price_per_unit : ℚ
  vat : ℚ
deriving DecidableEq, Repr

/-- Per-apartment outcome of one bill split, the eight numbers shown in the
results table at src/smart_bill_splitter.py lines 164 and 218: fixed share,
usage share, VAT share and total for apartment 1 and for apartment 2. -/
structure SplitResult where
  fixed1 : ℚ
  usage1 : ℚ
  vat1 : ℚ
  total1 : ℚ
  fixed2 : ℚ
  usage2 : ℚ
  vat2 : ℚ
  total2 : ℚ
deriving DecidableEq, Repr

/-- Electricity results split, src/smart_bill_splitter.py lines 160-163:
apt1_cost is metered consumption times unit price, apt2_cost is the stated
total usage cost minus apt1_cost, the fixed cost is halved, VAT is allocated
in proportion to each subtotal over the combined subtotal, and each total is
subtotal plus VAT share. The divisions on line 162 raise ZeroDivisionError in
Python when the combined subtotal is zero; that case is the error branch. -/
def electricityResultsSplit (bill : BillData) (current_reading prev_reading : ℚ) :
    Except String SplitResult :=
  let apt1_cost := (current_reading - prev_reading) * bill.price_per_unit
  let apt2_cost := bill.total_usage_cost - apt1_cost
  let fixed_cost := bill.fixed_cost / 2
  let subtotal1 := fixed_cost + apt1_cost
  let subtotal2 := fixed_cost + apt2_cost
  let total_sub := bill.fixed_cost + bill.total_usage_cost
  if total_sub = 0 then Except.error "ZeroDivisionError"
  else
    let vat1 := subtotal1 / total_sub * bill.vat
    let vat2 := subtotal2 / total_sub * bill.vat
    Except.ok
      ⟨fixed_cost, apt1_cost, vat1, subtotal1 + vat1,
       fixed_cost, apt2_cost, vat2, subtotal2 + vat2⟩

/-- Water results split, src/smart_bill_splitter.py lines 214-217. The body is
line for line the same computation as the electricity one, with the meter keys
renamed (current_reading_m3, price_per_m3). -/
def waterResultsSplit (bill : BillData) (current_reading prev_reading : ℚ) :
    Except String SplitResult :=
  let apt1_cost := (current_reading - prev_reading) * bill.price_per_unit
  let apt2_cost := bill.total_usage_cost - apt1_cost
  let fixed_cost := bill.fixed_cost / 2
  let subtotal1 := fixed_cost + apt1_cost
  let subtotal2 := fixed_cost + apt2_cost
  let total_sub := bill.fixed_cost + bill.total_usage_cost
  if total_sub = 0 then Except.error "ZeroDivisionError"
  else
    let vat1 := subtotal1 / total_sub * bill.vat
    let vat2 := subtotal2 / total_sub * bill.vat
    Except.ok
      ⟨fixed_cost, apt1_cost, vat1, subtotal1 + vat1,
       fixed_cost, apt2_cost, vat2, subtotal2 + vat2⟩

/-- Modelled from the spec: the UtilitySplitter.split contract of section 4.2,
written with the variable names of the spec (consumption_of_first,
first_usage_cost, second_usage_cost, fixed_share_each, subtotal_first,
subtotal_second, combined_subtotal, vat_first, vat_second). The spec declares
proportional VAT allocation undefined when combined_subtotal is zero, so that
case yields none. This definition exists only to be compared with the two
splits transliterated from the source above. -/
def splitSpec (bill : BillData) (current_reading previous_reading : ℚ) :
    Option SplitResult :=
  let consumption_of_first := current_reading - previous_reading
  let first_usage_cost := consumption_of_first * bill.price_per_unit
  let second_usage_cost := bill.total_usage_cost - first_usage_cost
  let fixed_share_each := bill.fixed_cost / 2
  let subtotal_first := fixed_share_each + first_usage_cost
  let subtotal_second := fixed_share_each + second_usage_cost
  let combined_subtotal := bill.fixed_cost + bill.total_usage_cost
  if combined_subtotal = 0 then none
  else
    let vat_first := subtotal_first / combined_subtotal * bill.vat
    let vat_second := subtotal_second / combined_subtotal * bill.vat
    some
      ⟨fixed_share_each, first_usage_cost, vat_first, subtotal_first + vat_first,
       fixed_share_each, second_usage_cost, vat_second, subtotal_second + vat_second⟩

/- ===================== Processed-bill ledger ===================== -/

/-- One record of the processed-bills ledger, the dicts appended at
src/smart_bill_splitter.py lines 107, 166 and 220: the Bill Type label and the
two apartment totals. -/
structure BillRecord where
  billType : String
  apt1 : ℚ
  apt2 : ℚ
deriving DecidableEq, Repr

/-- Characters of a string up to (excluding) the first space character. -/
def firstToken : List Char → List Char
  | [] => []
  | c :: cs => if c = ' ' then [] else c :: firstToken cs

/-- Category key of a bill-type label, src/smart_bill_splitter.py line 73:
the Python expression that splits x at the space character and takes element
zero, that is everything before the first space (the whole string when it
holds no space). -/
def category (s : String) : String := String.mk (firstToken s.toList)

/-- Code points of a string, the order keys by which pandas sorts group
labels. -/
def strKey (s : String) : List Nat := s.toList.map Char.toNat

/-- Lexicographic comparison of code-point lists, embedding the string order
used by the pandas groupby at src/smart_bill_splitter.py line 75 (group keys
are sorted ascending). -/
def lexLe : List Nat → List Nat → Bool
  | [], _ => true
  | _ :: _, [] => false
  | a :: as, b :: bs => if a < b then true else if b < a then false else lexLe as bs

/-- Insertion of one category label into a sorted list of labels. -/
def insertSorted (c : String) : List String → List String
  | [] => [c]
  | x :: xs => if lexLe (strKey c) (strKey x) then c :: x :: xs else x :: insertSorted c xs

/-- Insertion sort of category labels, ascending in code-point order. -/
def sortCats : List String → List String
  | [] => []
  | x :: xs => insertSorted x (sortCats xs)

/-- Distinct category keys of a ledger, sorted ascending, matching the index
of the pandas groupby at src/smart_bill_splitter.py line 75. -/
def categoriesOf (records : List BillRecord) : List String :=
  sortCats ((records.map fun r => category r.billType).dedup)

/-- One row of the Totals by Category table: category key, sum of apartment-1
totals, sum of apartment-2 totals, and the Category Total column added at
src/smart_bill_splitter.py line 78. -/
structure CategoryRow where
  key : String
  apt1 : ℚ
  apt2 : ℚ
  categoryTotal : ℚ
deriving DecidableEq, Repr

/-- Row of the category summary for one category key: the groupby sums of
src/smart_bill_splitter.py line 75 plus the total column of line 78. -/
def categoryRowOf (records : List BillRecord) (c : String) : CategoryRow :=
  let s1 := ((records.filter fun r => category r.billType = c).map BillRecord.apt1).sum
  let s2 := ((records.filter fun r => category r.billType = c).map BillRecord.apt2).sum
  ⟨c, s1, s2, s1 + s2⟩

/-- Totals by Category summary, src/smart_bill_splitter.py lines 72-82: one
row per distinct category key (sorted), and the GRAND TOTAL row of lines 81-82
summing each of the three columns over all category rows. -/
def groupTotals (records : List BillRecord) : List CategoryRow × CategoryRow :=
  let rows := (categoriesOf records).map (categoryRowOf records)
  let g1 := (rows.map CategoryRow.apt1).sum
  let g2 := (rows.map CategoryRow.apt2).sum
  let g3 := (rows.map CategoryRow.categoryTotal).sum
  (rows, ⟨"**GRAND TOTAL**", g1, g2, g3⟩)

/- ===================== Upload wizard step machine ===================== -/

/-- Steps of the per-utility upload workflow, the values taken by the session
keys elec_step and water_step in src/smart_bill_splitter.py. -/
inductive WizardStep
  | upload
  | processing
  | results
deriving DecidableEq, Repr

/-- Session state of one upload workflow: the current step, the current meter
reading stored at the analyze step, the previous reading stored when the split
is accepted, and the result-saved flag. -/
structure WizardState where
  step : WizardStep
  currentReading : Option ℚ
  previousReading : Option ℚ
  resultSaved : Bool
deriving DecidableEq, Repr

/-- Initial workflow state, src/smart_bill_splitter.py lines 20-26: step
upload, no readings, result not saved. -/
def initialWizardState : WizardState :=
  ⟨WizardStep.upload, none, none, false⟩

/-- User interactions that drive one upload workflow. The analyze event
carries the current meter reading obtained from the OCR stub or manual entry;
the calcSplit event carries the previous reading input, none standing for a
missing input. -/
inductive WizardEvent
  | analyze (currentReading : ℚ)
  | calcSplit (prevInput : Option ℚ)
  | saveResult
  | reset
deriving DecidableEq, Repr

/-- Transition function of the upload wizard, covering both the electricity
workflow (src/smart_bill_splitter.py lines 123-171) and the water workflow
(lines 178-225), whose step logic is identical. Analyze moves upload to
processing and stores the current reading (lines 135-143). Calculate split
(lines 151-155, 205-209) stays in processing with an error message when the
previous reading is missing or is at least the current reading, and otherwise
stores it and moves to results with the saved flag cleared. Saving the result
(lines 167-169, 221-223) only sets the flag. Reset (lines 28-31) restores the
initial state. -/
def wizardStepFn (s : WizardState) (e : WizardEvent) : WizardState :=
  match e with
  | WizardEvent.analyze c =>
      if s.step = WizardStep.upload then
        { s with step := WizardStep.processing, currentReading := some c }
      else s
  | WizardEvent.calcSplit p =>
      if s.step = WizardStep.processing then
        match p, s.currentReading with
        | some v, some c =>
            if v ≥ c then s
            else
              { step := WizardStep.results, currentReading := some c,
                previousReading := some v, resultSaved := false }
        | _, _ => s
      else s
  | WizardEvent.saveResult =>
      if s.step = WizardStep.results then { s with resultSaved := true } else s
  | WizardEvent.reset => initialWizardState

/-- States reachable from the initial workflow state under any sequence of
user interactions. -/
inductive ReachableWizard : WizardState → Prop
  | init : ReachableWizard initialWizardState
  | next {s : WizardState} (e : WizardEvent) :
      ReachableWizard s → ReachableWizard (wizardStepFn s e)

/- ===================== Verification agent ===================== -/

/-- Value found under the isRestricted key of the parsed response body: a
JSON boolean, or any other JSON value. -/
inductive JsonVal
  | bool (b : Bool)
  | other
deriving DecidableEq, Repr

/-- Outcome of the try block of VerificationAgent.run
(src/streamlit_multi_tenant_app_PROD+He.py lines 31-44, identical at
src/multi.tenant.bg.check.he.py lines 55-68), abstracting the network: a
2xx response whose parsed body has the given isRestricted field (none when
the key is absent), a requests.exceptions.RequestException (transport error,
timeout, or the non-2xx raise of raise_for_status) with its message, or any
other exception with its message. -/
inductive CallOutcome
  | success (isRestricted : Option JsonVal)
  | requestError (detail : String)
  | otherError (detail : String)
deriving DecidableEq, Repr

/-- Distinct status strings returned under the id_check key by
VerificationAgent.run. In source order the Hebrew texts are: no identifier
provided (line 29), clear (line 38), restriction found (line 40),
communication error with the exception text (line 42), unexpected error with
the exception text (line 44). -/
inductive IdCheckStatus
  | noId
  | clear
  | restricted
  | commError (detail : String)
  | unexpectedError (detail : String)
deriving DecidableEq, Repr

/-- Result of one verification: the returned status, paired with whether the
session.get network call of line 33 was issued. -/
structure VerifyResult where
  status : IdCheckStatus
  madeNetworkCall : Bool
deriving DecidableEq, Repr

/-- Python str.isdigit: true when the string is nonempty and every character
is a digit. The identifiers in scope are ASCII ID-number strings, so digits
are embedded as ASCII digits. -/
def pyIsDigit (s : String) : Bool := !s.isEmpty && s.toList.all Char.isDigit

/-- VerificationAgent.run, src/streamlit_multi_tenant_app_PROD+He.py lines
24-44 (identical at src/multi.tenant.bg.check.he.py lines 48-68). An empty or
non-all-digit identifier short-circuits to the no-identifier status without
the network call. Otherwise the call is issued: on a parsed 2xx body the
status is clear exactly when the isRestricted field is the boolean false and
restriction-found for every other value including a missing field; a
RequestException maps to the communication-error status carrying the message;
any other exception maps to the unexpected-error status carrying the
message. -/
def VerificationAgent.run (id_number : String) (outcome : CallOutcome) : VerifyResult :=
  if id_number.isEmpty || !pyIsDigit id_number then ⟨IdCheckStatus.noId, false⟩
  else
    match outcome with
    | CallOutcome.success isRestricted =>
        if isRestricted = some (JsonVal.bool false) then ⟨IdCheckStatus.clear, true⟩
        else ⟨IdCheckStatus.restricted, true⟩
    | CallOutcome.requestError e => ⟨IdCheckStatus.commError e, true⟩
    | CallOutcome.otherError e => ⟨IdCheckStatus.unexpectedError e, true⟩

/- ===================== Financial risk agent ===================== -/

/-- Risk levels assigned by FinancialRiskAgent.run. In source order the
Hebrew labels are: low (line 63), very high (line 65), high (line 67), medium
(line 69). -/
inductive RiskLevel
  | low
  | medium
  | high
  | veryHigh
deriving DecidableEq, Repr

/-- Numeric content of the report dict built at
src/streamlit_multi_tenant_app_PROD+He.py lines 71-79. The expense-to-income
field lives in WithTop because line 61 yields the float infinity when the
total income is not positive; currency and percentage formatting of the dict
values is presentation only and is not modelled. -/
structure RiskReport where
  total_monthly_income : ℚ
  total_housing_cost : ℚ
  user_defined_living_cost : ℚ
  total_estimated_expenses : ℚ
  expense_to_income : WithTop ℚ
  risk_level : RiskLevel
deriving DecidableEq, Repr

/-- Result of FinancialRiskAgent.run: the insufficient-data dict of line 53
(risk level missing data, no numeric fields), or the full report. -/
inductive RiskResult
  | insufficientData
  | report (r : RiskReport)
deriving DecidableEq, Repr

/-- Threshold cascade of src/streamlit_multi_tenant_app_PROD+He.py lines
63-69: start at low, then strictly-greater comparisons from the highest
threshold down. The literals 0.65, 0.50, 0.40 are embedded as exact
rationals. -/
def riskLevelOf (r : WithTop ℚ) : RiskLevel :=
  if (((65 : ℚ)/100 : ℚ) : WithTop ℚ) < r then RiskLevel.veryHigh
  else if (((50 : ℚ)/100 : ℚ) : WithTop ℚ) < r then RiskLevel.high
  else if (((40 : ℚ)/100 : ℚ) : WithTop ℚ) < r then RiskLevel.medium
  else RiskLevel.low

/-- FinancialRiskAgent.run, src/streamlit_multi_tenant_app_PROD+He.py lines
50-79 (identical at src/multi.tenant.bg.check.he.py lines 74-103). The salary
list is summed (line 51; float conversion of the s-or-0 guard is the identity
on numbers); a zero total returns the insufficient-data dict before any
further arithmetic (lines 52-53); otherwise housing cost, total expenses and
the expense-to-income quotient are computed (lines 59-61, top standing for
the float infinity of the non-positive branch) and the risk level follows the
threshold cascade. -/
def FinancialRiskAgent.run (salaries : List ℚ) (rent arnona living_costs : ℚ) :
    RiskResult :=
  let total_income := salaries.sum
  if total_income = 0 then RiskResult.insufficientData
  else
    let housing_cost := rent + arnona
    let total_expenses := housing_cost + living_costs
    let expense_to_income : WithTop ℚ :=
      if 0 < total_income then ((total_expenses / total_income : ℚ) : WithTop ℚ) else ⊤
    RiskResult.report
      ⟨total_income, housing_cost, living_costs, total_expenses, expense_to_income,
       riskLevelOf expense_to_income⟩

/- ===================== Theorems: splitter ===================== -/

/-- Explicit value of the electricity split when the combined subtotal is
nonzero. -/
lemma electricityResultsSplit_ok (bill : BillData) (cur prev : ℚ)
    (hnz : bill.fixed_cost + bill.total_usage_cost ≠ 0) :
    electricityResultsSplit bill cur prev = Except.ok
      ⟨bill.fixed_cost / 2,
       (cur - prev) * bill.price_per_unit,
       (bill.fixed_cost / 2 + (cur - prev) * bill.price_per_unit) /
         (bill.fixed_cost + bill.total_usage_cost) * bill.vat,
       bill.fixed_cost / 2 + (cur - prev) * bill.price_per_unit +
         (bill.fixed_cost / 2 + (cur - prev) * bill.price_per_unit) /
           (bill.fixed_cost + bill.total_usage_cost) * bill.vat,
       bill.fixed_cost / 2,
       bill.total_usage_cost - (cur - prev) * bill.price_per_unit,
       (bill.fixed_cost / 2 + (bill.total_usage_cost - (cur - prev) * bill.price_per_unit)) /
         (bill.fixed_cost + bill.total_usage_cost) * bill.vat,
       bill.fixed_cost / 2 + (bill.total_usage_cost - (cur - prev) * bill.price_per_unit) +
         (bill.fixed_cost / 2 + (bill.total_usage_cost - (cur - prev) * bill.price_per_unit)) /
           (bill.fixed_cost + bill.total_usage_cost) * bill.vat⟩ := by
  simp only [electricityResultsSplit, if_neg hnz]

/-- Explicit value of the water split when the combined subtotal is
nonzero. -/
lemma waterResultsSplit_ok (bill : BillData) (cur prev : ℚ)
    (hnz : bill.fixed_cost + bill.total_usage_cost ≠ 0) :
    waterResultsSplit bill cur prev = Except.ok
      ⟨bill.fixed_cost / 2,
       (cur - prev) * bill.price_per_unit,
       (bill.fixed_cost / 2 + (cur - prev) * bill.price_per_unit) /
         (bill.fixed_cost + bill.total_usage_cost) * bill.vat,
       bill.fixed_cost / 2 + (cur - prev) * bill.price_per_unit +
         (bill.fixed_cost / 2 + (cur - prev) * bill.price_per_unit) /
           (bill.fixed_cost + bill.total_usage_cost) * bill.vat,
       bill.fixed_cost / 2,
       bill.total_usage_cost - (cur - prev) * bill.price_per_unit,
       (bill.fixed_cost / 2 + (bill.total_usage_cost - (cur - prev) * bill.price_per_unit)) /
         (bill.fixed_cost + bill.total_usage_cost) * bill.vat,
       bill.fixed_cost / 2 + (bill.total_usage_cost - (cur - prev) * bill.price_per_unit) +
         (bill.fixed_cost / 2 + (bill.total_usage_cost - (cur - prev) * bill.price_per_unit)) /
           (bill.fixed_cost + bill.total_usage_cost) * bill.vat⟩ := by
  simp only [waterResultsSplit, if_neg hnz]

/-- C1: for every splitter input with the previous reading strictly below the
current one and a nonzero combined subtotal, the two apartment shares
reconstruct the bill component-wise and in total, identically for the
electricity split and the water split: the fixed shares sum to the fixed
cost, the usage shares to the total usage cost, the VAT shares to the VAT,
and the two totals to fixed cost plus usage cost plus VAT, exactly in
rational arithmetic. -/
theorem split_totals_reconstruct_bill (bill : BillData) (cur prev : ℚ)
    (hlt : prev < cur) (hnz : bill.fixed_cost + bill.total_usage_cost ≠ 0) :
    ∃ r : SplitResult,
      electricityResultsSplit bill cur prev = Except.ok r ∧
      waterResultsSplit bill cur prev = Except.ok r ∧
      r.fixed1 + r.fixed2 = bill.fixed_cost ∧
      r.usage1 + r.usage2 = bill.total_usage_cost ∧
      r.vat1 + r.vat2 = bill.vat ∧
      r.total1 + r.total2 = bill.fixed_cost + bill.total_usage_cost + bill.vat := by
  refine ⟨_, electricityResultsSplit_ok bill cur prev hnz,
    waterResultsSplit_ok bill cur prev hnz, ?_, ?_, ?_, ?_⟩
  · ring
  · ring
  · field_simp
    ring
  · field_simp
    ring

/-- Witness for C1 at a concrete bill: fixed cost 64, usage cost 100, unit
price 5, VAT 33, readings 1 and 9. -/
theorem split_totals_reconstruct_bill_witness :
    ∃ r : SplitResult,
      electricityResultsSplit ⟨64, 100, 5, 33⟩ 9 1 = Except.ok r ∧
      waterResultsSplit ⟨64, 100, 5, 33⟩ 9 1 = Except.ok r ∧
      r.fixed1 + r.fixed2 = (⟨64, 100, 5, 33⟩ : BillData).fixed_cost ∧
      r.usage1 + r.usage2 = (⟨64, 100, 5, 33⟩ : BillData).total_usage_cost ∧
      r.vat1 + r.vat2 = (⟨64, 100, 5, 33⟩ : BillData).vat ∧
      r.total1 + r.total2 = (⟨64, 100, 5, 33⟩ : BillData).fixed_cost +
        (⟨64, 100, 5, 33⟩ : BillData).total_usage_cost + (⟨64, 100, 5, 33⟩ : BillData).vat :=
  split_totals_reconstruct_bill ⟨64, 100, 5, 33⟩ 9 1 (by norm_num) (by norm_num)

/-- C2: under the stated precondition (previous reading strictly below the
current one) the electricity split computes exactly the spec formulas of
section 4.2, i.e. it returns a result precisely when splitSpec does and the
same one; and the electricity and the water computations are the identical
function on these numeric inputs. -/
theorem split_matches_spec_formulas (bill : BillData) (cur prev : ℚ)
    (hlt : prev < cur) :
    (∀ r : SplitResult,
        electricityResultsSplit bill cur prev = Except.ok r ↔
          splitSpec bill cur prev = some r) ∧
    electricityResultsSplit = waterResultsSplit := by
  constructor
  · intro r
    by_cases h : bill.fixed_cost + bill.total_usage_cost = 0
    · simp [electricityResultsSplit, splitSpec, if_pos h]
    · simp [electricityResultsSplit, splitSpec, if_neg h]
  · rfl

/-- Witness for C2 at a concrete bill and readings. -/
theorem split_matches_spec_formulas_witness :
    (electricityResultsSplit ⟨64, 100, 5, 33⟩ 9 1 =
        Except.ok ⟨0, 0, 0, 0, 0, 0, 0, 0⟩ ↔
      splitSpec ⟨64, 100, 5, 33⟩ 9 1 = some ⟨0, 0, 0, 0, 0, 0, 0, 0⟩) ∧
    electricityResultsSplit = waterResultsSplit := by
  have h := split_matches_spec_formulas ⟨64, 100, 5, 33⟩ 9 1 (by norm_num)
  exact ⟨h.1 _, h.2⟩

/-- C5 counterexample: the zero-cost bill is not special-cased. At fixed cost
0, usage cost 0, unit price 1, VAT 17, readings 1 and 2, both splits reach
the division by the zero combined subtotal, which in Python raises
ZeroDivisionError (the error branch of the embedding); no sentinel result is
produced. -/
theorem zero_cost_bill_not_special_cased :
    electricityResultsSplit ⟨0, 0, 1, 17⟩ 2 1 = Except.error "ZeroDivisionError" ∧
    waterResultsSplit ⟨0, 0, 1, 17⟩ 2 1 = Except.error "ZeroDivisionError" := by
  constructor <;> norm_num [electricityResultsSplit, waterResultsSplit]

/-- C5 amended: the code does not special-case a zero combined subtotal. For
every input whose fixed cost plus total usage cost is zero, both splits
perform the VAT-proportion division by zero, i.e. they raise
ZeroDivisionError instead of returning any result. -/
theorem zero_cost_bill_divides_by_zero (bill : BillData) (cur prev : ℚ)
    (hz : bill.fixed_cost + bill.total_usage_cost = 0) :
    electricityResultsSplit bill cur prev = Except.error "ZeroDivisionError" ∧
    waterResultsSplit bill cur prev = Except.error "ZeroDivisionError" := by
  constructor <;> simp [electricityResultsSplit, waterResultsSplit, if_pos hz]

/-- Witness for the amended C5 at a concrete zero-cost bill. -/
theorem zero_cost_bill_divides_by_zero_witness :
    electricityResultsSplit ⟨0, 0, 9, 17⟩ 3 1 = Except.error "ZeroDivisionError" ∧
    waterResultsSplit ⟨0, 0, 9, 17⟩ 3 1 = Except.error "ZeroDivisionError" :=
  zero_cost_bill_divides_by_zero ⟨0, 0, 9, 17⟩ 3 1 (by norm_num)

/-- C10: the splitter outputs are not guaranteed non-negative. At fixed cost
0, usage cost 5, unit price 10, VAT 0, previous reading 0 and current reading
2, every stated precondition holds (all monetary inputs non-negative,
previous strictly below current), yet the second apartment usage share is
5 - 20 = -15 and its total is also strictly negative, in both splits. -/
theorem split_second_share_can_be_negative :
    ∃ (bill : BillData) (cur prev : ℚ),
      0 ≤ bill.fixed_cost ∧ 0 ≤ bill.total_usage_cost ∧ 0 ≤ bill.price_per_unit ∧
      0 ≤ bill.vat ∧ 0 ≤ prev ∧ prev < cur ∧
      ∃ r : SplitResult,
        electricityResultsSplit bill cur prev = Except.ok r ∧
        waterResultsSplit bill cur prev = Except.ok r ∧
        r.usage2 < 0 ∧ r.total2 < 0 := by
  refine ⟨⟨0, 5, 10, 0⟩, 2, 0, by norm_num, by norm_num, by norm_num, by norm_num,
    by norm_num, by norm_num, ⟨0, 20, 0, 20, 0, -15, 0, -15⟩, ?_, ?_, by norm_num, by norm_num⟩
  · norm_num [electricityResultsSplit]
  · norm_num [waterResultsSplit]

/- ===================== Theorems: ledger ===================== -/

/-- Insertion into a sorted list is a permutation of consing. -/
lemma insertSorted_perm (c : String) (l : List String) :
    (insertSorted c l).Perm (c :: l) := by
  induction l with
  | nil => simp [insertSorted]
  | cons x xs ih =>
      by_cases h : lexLe (strKey c) (strKey x) = true
      · simp [insertSorted, h]
      · simp only [insertSorted, h, if_false, Bool.false_eq_true]
        exact (ih.cons x).trans (List.Perm.swap c x xs)

/-- Insertion sort is a permutation of its input. -/
lemma sortCats_perm (l : List String) : (sortCats l).Perm l := by
  induction l with
  | nil => simp [sortCats]
  | cons x xs ih =>
      have h1 := insertSorted_perm x (sortCats xs)
      simpa [sortCats] using h1.trans (ih.cons x)

/-- Summing a map that adds x exactly at one key of a duplicate-free list
pulls x out of the sum. -/
lemma sum_map_ite_mem (k : String) (x : ℚ) (g : String → ℚ) :
    ∀ cats : List String, cats.Nodup → k ∈ cats →
      (cats.map fun c => if k = c then x + g c else g c).sum = x + (cats.map g).sum := by
  intro cats
  induction cats with
  | nil => intro _ hk; cases hk
  | cons c cs ih =>
      intro hnd hk
      have hnd' := List.nodup_cons.mp hnd
      rw [List.map_cons, List.sum_cons, List.map_cons, List.sum_cons]
      rcases List.mem_cons.mp hk with hkc | hkcs
      · subst hkc
        rw [if_pos rfl]
        have htail : (cs.map fun d => if k = d then x + g d else g d) = cs.map g := by
          apply List.map_congr_left
          intro a ha
          exact if_neg (fun e => hnd'.1 (by rw [e]; exact ha))
        rw [htail]
        ring
      · have hkc : k ≠ c := fun e => hnd'.1 (by rw [← e]; exact hkcs)
        rw [if_neg hkc, ih hnd'.2 hkcs]
        ring

/-- Grouping a ledger by any duplicate-free key list covering all its
category keys partitions it: the per-group sums add up to the overall sum. -/
lemma sum_filter_by_category (f : BillRecord → ℚ) (cats : List String)
    (hnd : cats.Nodup) :
    ∀ records : List BillRecord,
      (∀ r ∈ records, category r.billType ∈ cats) →
      (cats.map fun c =>
          ((records.filter fun r => category r.billType = c).map f).sum).sum
        = (records.map f).sum := by
  intro records
  induction records with
  | nil =>
      intro _
      simp
  | cons r rs ih =>
      intro hcov
      have hr : category r.billType ∈ cats := hcov r (List.mem_cons_self r rs)
      have hrs : ∀ t ∈ rs, category t.billType ∈ cats :=
        fun t ht => hcov t (List.mem_cons_of_mem r ht)
      have hstep : ∀ c ∈ cats,
          (((r :: rs).filter fun t => category t.billType = c).map f).sum
            = if category r.billType = c
              then f r + ((rs.filter fun t => category t.billType = c).map f).sum
              else ((rs.filter fun t => category t.billType = c).map f).sum := by
        intro c _
        by_cases h : category r.billType = c
        · simp [List.filter_cons, h]
        · simp [List.filter_cons, h]
      calc (cats.map fun c =>
              (((r :: rs).filter fun t => category t.billType = c).map f).sum).sum
          = (cats.map fun c => if category r.billType = c
              then f r + ((rs.filter fun t => category t.billType = c).map f).sum
              else ((rs.filter fun t => category t.billType = c).map f).sum).sum := by
            rw [List.map_congr_left hstep]
        _ = f r + (cats.map fun c =>
              ((rs.filter fun t => category t.billType = c).map f).sum).sum :=
            sum_map_ite_mem _ _ _ cats hnd hr
        _ = f r + (rs.map f).sum := by rw [ih hrs]
        _ = ((r :: rs).map f).sum := by simp

/-- Sum of a pointwise sum of two maps splits into two sums. -/
lemma sum_map_add_q {α : Type} (l : List α) (f g : α → ℚ) :
    (l.map fun a => f a + g a).sum = (l.map f).sum + (l.map g).sum := by
  induction l with
  | nil => simp
  | cons a as ih =>
      simp only [List.map_cons, List.sum_cons, ih]
      ring

/-- Category keys of a ledger are duplicate-free and cover all records. -/
lemma categoriesOf_nodup_cover (records : List BillRecord) :
    (categoriesOf records).Nodup ∧
      ∀ r ∈ records, category r.billType ∈ categoriesOf records := by
  constructor
  · exact ((sortCats_perm _).nodup_iff).mpr (List.nodup_dedup _)
  · intro r hr
    have hm : category r.billType ∈ (records.map fun t => category t.billType).dedup :=
      List.mem_dedup.mpr (List.mem_map_of_mem _ hr)
    exact ((sortCats_perm _).mem_iff).mpr hm

/-- C7: the Totals by Category summary groups records by the first
space-delimited token of the bill-type label, sums both apartment columns and
their combined total per group, and appends one GRAND TOTAL row summing the
three columns over all groups. On the three stated records it yields the
Electricity row (15, 25, 40), the Water row (3, 7, 10) and the grand total
(18, 32, 50); and for every ledger the grand-total row equals the sums of the
apartment-1 totals, the apartment-2 totals, and both together over all
records. -/
theorem group_totals_correct :
    groupTotals
        [⟨"Electricity (a)", 10, 20⟩, ⟨"Electricity (b)", 5, 5⟩, ⟨"Water (c)", 3, 7⟩]
      = ([⟨"Electricity", 15, 25, 40⟩, ⟨"Water", 3, 7, 10⟩],
         ⟨"**GRAND TOTAL**", 18, 32, 50⟩) ∧
    ∀ records : List BillRecord,
      (groupTotals records).2.apt1 = (records.map BillRecord.apt1).sum ∧
      (groupTotals records).2.apt2 = (records.map BillRecord.apt2).sum ∧
      (groupTotals records).2.categoryTotal
        = (records.map BillRecord.apt1).sum + (records.map BillRecord.apt2).sum := by
  constructor
  · have hcats : categoriesOf
        [⟨"Electricity (a)", 10, 20⟩, ⟨"Electricity (b)", 5, 5⟩, ⟨"Water (c)", 3, 7⟩]
        = ["Electricity", "Water"] := by decide
    have hfE : ([⟨"Electricity (a)", 10, 20⟩, ⟨"Electricity (b)", 5, 5⟩,
        ⟨"Water (c)", 3, 7⟩] : List BillRecord).filter
          (fun r => category r.billType = "Electricity")
        = [⟨"Electricity (a)", 10, 20⟩, ⟨"Electricity (b)", 5, 5⟩] := by decide
    have hfW : ([⟨"Electricity (a)", 10, 20⟩, ⟨"Electricity (b)", 5, 5⟩,
        ⟨"Water (c)", 3, 7⟩] : List BillRecord).filter
          (fun r => category r.billType = "Water")
        = [⟨"Water (c)", 3, 7⟩] := by decide
    simp only [groupTotals, hcats, List.map_cons, List.map_nil, categoryRowOf, hfE, hfW,
      List.sum_cons, List.sum_nil, Prod.mk.injEq, List.cons.injEq, CategoryRow.mk.injEq]
    norm_num
  · intro records
    obtain ⟨hnd, hcov⟩ := categoriesOf_nodup_cover records
    refine ⟨?_, ?_, ?_⟩
    · simp only [groupTotals, List.map_map]
      exact sum_filter_by_category BillRecord.apt1 _ hnd records hcov
    · simp only [groupTotals, List.map_map]
      exact sum_filter_by_category BillRecord.apt2 _ hnd records hcov
    · simp only [groupTotals, List.map_map]
      have h3 : ((categoriesOf records).map (CategoryRow.categoryTotal ∘ categoryRowOf records))
          = (categoriesOf records).map fun c =>
              ((records.filter fun r => category r.billType = c).map BillRecord.apt1).sum +
              ((records.filter fun r => category r.billType = c).map BillRecord.apt2).sum := by
        apply List.map_congr_left
        intro c _
        rfl
      rw [h3, sum_map_add_q]
      rw [sum_filter_by_category BillRecord.apt1 _ hnd records hcov,
        sum_filter_by_category BillRecord.apt2 _ hnd records hcov]

/- ===================== Theorems: wizard ===================== -/

/-- C8: in the upload wizard, a calculate-split attempt whose previous
reading is at least the current one is rejected and leaves the state
unchanged (the validation error of lines 154 and 208), and consequently every
reachable results state carries a previous reading strictly below the current
reading — the precondition of the split holds whenever the split is
computed, in the electricity workflow and the water workflow alike. -/
theorem wizard_results_requires_valid_previous :
    (∀ (s : WizardState) (v c : ℚ), s.step = WizardStep.processing →
        s.currentReading = some c → v ≥ c →
        wizardStepFn s (WizardEvent.calcSplit (some v)) = s) ∧
    (∀ s : WizardState, ReachableWizard s → s.step = WizardStep.results →
        ∃ p c : ℚ, s.previousReading = some p ∧ s.currentReading = some c ∧ p < c) := by
  constructor
  · intro s v c hstep hcur hge
    simp [wizardStepFn, hstep, hcur, if_pos hge]
  · intro s hreach
    induction hreach with
    | init =>
        intro h
        simp [initialWizardState] at h
    | next e hs ih =>
        rename_i t
        intro hres
        cases e with
        | analyze c =>
            by_cases h : t.step = WizardStep.upload
            · simp [wizardStepFn, h] at hres
            · simp only [wizardStepFn, if_neg h] at hres ⊢
              exact ih hres
        | calcSplit p =>
            by_cases h : t.step = WizardStep.processing
            · cases p with
              | none =>
                  cases hc : t.currentReading with
                  | none =>
                      simp only [wizardStepFn, if_pos h, hc] at hres ⊢
                      rw [← hc]
                      exact ih hres
                  | some c =>
                      simp only [wizardStepFn, if_pos h, hc] at hres ⊢
                      rw [← hc]
                      exact ih hres
              | some v =>
                  cases hc : t.currentReading with
                  | none =>
                      simp only [wizardStepFn, if_pos h, hc] at hres ⊢
                      rw [← hc]
                      exact ih hres
                  | some c =>
                      by_cases hvc : v ≥ c
                      · simp only [wizardStepFn, if_pos h, hc, if_pos hvc] at hres ⊢
                        rw [← hc]
                        exact ih hres
                      · simp only [wizardStepFn, if_pos h, hc, if_neg hvc] at hres ⊢
                        exact ⟨v, c, rfl, rfl, lt_of_not_ge hvc⟩
            · simp only [wizardStepFn, if_neg h] at hres ⊢
              exact ih hres
        | saveResult =>
            by_cases h : t.step = WizardStep.results
            · simp only [wizardStepFn, if_pos h] at hres ⊢
              exact ih h
            · simp only [wizardStepFn, if_neg h] at hres ⊢
              exact ih hres
        | reset =>
            simp [wizardStepFn, initialWizardState] at hres

/-- Witness for C8: a rejected attempt at previous reading 7 against current
reading 5, and the concrete reachable results state reached by analyzing at
current reading 5 and accepting previous reading 2. -/
theorem wizard_results_requires_valid_previous_witness :
    (wizardStepFn ⟨WizardStep.processing, some 5, none, false⟩
        (WizardEvent.calcSplit (some 7)) = ⟨WizardStep.processing, some 5, none, false⟩) ∧
    ∃ p c : ℚ,
      (wizardStepFn (wizardStepFn initialWizardState (WizardEvent.analyze 5))
          (WizardEvent.calcSplit (some 2))).previousReading = some p ∧
      (wizardStepFn (wizardStepFn initialWizardState (WizardEvent.analyze 5))
          (WizardEvent.calcSplit (some 2))).currentReading = some c ∧
      p < c := by
  have h := wizard_results_requires_valid_previous
  refine ⟨h.1 ⟨WizardStep.processing, some 5, none, false⟩ 7 5 rfl rfl (by norm_num), ?_⟩
  refine h.2 _ (ReachableWizard.next _ (ReachableWizard.next _ ReachableWizard.init)) ?_
  norm_num [wizardStepFn, initialWizardState]

/- ===================== Theorems: verification agent ===================== -/

/-- C6: the verification lookup is total and returns exactly one of the five
statuses of its result type, with this mapping: an identifier failing the
digit check (empty strings included) yields the no-identifier status without
issuing the network call; with a valid identifier, a response body whose
isRestricted field is the boolean false yields the clear status, any other
value of the field (a missing field included) yields the restriction-found
status, a RequestException (transport error or non-2xx) yields the
communication-error status carrying the detail, and any other failure yields
the unexpected-error status carrying the detail. -/
theorem verification_status_mapping (id_number detail : String)
    (outcome : CallOutcome) :
    (pyIsDigit id_number = false →
        VerificationAgent.run id_number outcome = ⟨IdCheckStatus.noId, false⟩) ∧
    (pyIsDigit id_number = true →
      VerificationAgent.run id_number (CallOutcome.success (some (JsonVal.bool false)))
          = ⟨IdCheckStatus.clear, true⟩ ∧
      (∀ v : Option JsonVal, v ≠ some (JsonVal.bool false) →
        VerificationAgent.run id_number (CallOutcome.success v)
          = ⟨IdCheckStatus.restricted, true⟩) ∧
      VerificationAgent.run id_number (CallOutcome.requestError detail)
          = ⟨IdCheckStatus.commError detail, true⟩ ∧
      VerificationAgent.run id_number (CallOutcome.otherError detail)
          = ⟨IdCheckStatus.unexpectedError detail, true⟩) := by
  constructor
  · intro hd
    simp [VerificationAgent.run, hd]
  · intro hd
    have he : id_number.isEmpty = false := by
      have := hd
      unfold pyIsDigit at this
      cases hie : id_number.isEmpty with
      | false => rfl
      | true => rw [hie] at this; simp at this
    refine ⟨?_, ?_, ?_, ?_⟩
    · simp [VerificationAgent.run, hd, he]
    · intro v hv
      simp [VerificationAgent.run, hd, he, hv]
    · simp [VerificationAgent.run, hd, he]
    · simp [VerificationAgent.run, hd, he]

/-- Witness for C6: the identifier abc short-circuits without a network call,
and the identifier 123 realizes each of the other four statuses. -/
theorem verification_status_mapping_witness :
    VerificationAgent.run "abc" (CallOutcome.success none)
        = ⟨IdCheckStatus.noId, false⟩ ∧
    VerificationAgent.run "123" (CallOutcome.success (some (JsonVal.bool false)))
        = ⟨IdCheckStatus.clear, true⟩ ∧
    VerificationAgent.run "123" (CallOutcome.success none)
        = ⟨IdCheckStatus.restricted, true⟩ ∧
    VerificationAgent.run "123" (CallOutcome.requestError "timeout")
        = ⟨IdCheckStatus.commError "timeout", true⟩ ∧
    VerificationAgent.run "123" (CallOutcome.otherError "KeyError")
        = ⟨IdCheckStatus.unexpectedError "KeyError", true⟩ := by
  have ha := verification_status_mapping "abc" "timeout" (CallOutcome.success none)
  have hb := verification_status_mapping "123" "timeout" (CallOutcome.success none)
  have hc := verification_status_mapping "123" "KeyError" (CallOutcome.success none)
  exact ⟨ha.1 (by decide), (hb.2 (by decide)).1, (hb.2 (by decide)).2.1 none (by decide),
    (hb.2 (by decide)).2.2.1, (hc.2 (by decide)).2.2.2⟩

/- ===================== Theorems: financial risk agent ===================== -/

/-- C3: with a positive income sum, the agent reports housing cost, total
expenses, the expense-to-income quotient, and the tier given by the strict
threshold cascade evaluated from the highest threshold down; in particular a
quotient of exactly one half yields the medium tier (not high) and a quotient
of exactly 65/100 yields the high tier (not very high). -/
theorem risk_tier_thresholds (salaries : List ℚ) (rent arnona living_costs : ℚ)
    (h : 0 < salaries.sum) :
    FinancialRiskAgent.run salaries rent arnona living_costs =
      RiskResult.report
        ⟨salaries.sum, rent + arnona, living_costs, rent + arnona + living_costs,
         (((rent + arnona + living_costs) / salaries.sum : ℚ) : WithTop ℚ),
         riskLevelOf (((rent + arnona + living_costs) / salaries.sum : ℚ) : WithTop ℚ)⟩ ∧
    (∀ q : ℚ, riskLevelOf (q : WithTop ℚ) =
        if 65/100 < q then RiskLevel.veryHigh
        else if 50/100 < q then RiskLevel.high
        else if 40/100 < q then RiskLevel.medium
        else RiskLevel.low) ∧
    riskLevelOf ((1/2 : ℚ) : WithTop ℚ) = RiskLevel.medium ∧
    riskLevelOf ((65/100 : ℚ) : WithTop ℚ) = RiskLevel.high := by
  refine ⟨?_, ?_, ?_, ?_⟩
  · simp only [FinancialRiskAgent.run, if_neg h.ne', if_pos h]
  · intro q
    simp only [riskLevelOf, WithTop.coe_lt_coe]
  · simp only [riskLevelOf, WithTop.coe_lt_coe]
    norm_num
  · simp only [riskLevelOf, WithTop.coe_lt_coe]
    norm_num

/-- Witness for C3 at the spec example: one salary of 12000, rent 6000,
property tax 1000, living costs 5000, so the quotient is one. -/
theorem risk_tier_thresholds_witness :
    FinancialRiskAgent.run [12000] 6000 1000 5000 =
      RiskResult.report
        ⟨([12000] : List ℚ).sum, 6000 + 1000, 5000, 6000 + 1000 + 5000,
         (((6000 + 1000 + 5000 : ℚ) / ([12000] : List ℚ).sum : ℚ) : WithTop ℚ),
         riskLevelOf (((6000 + 1000 + 5000 : ℚ) / ([12000] : List ℚ).sum : ℚ) : WithTop ℚ)⟩ ∧
    (∀ q : ℚ, riskLevelOf (q : WithTop ℚ) =
        if 65/100 < q then RiskLevel.veryHigh
        else if 50/100 < q then RiskLevel.high
        else if 40/100 < q then RiskLevel.medium
        else RiskLevel.low) ∧
    riskLevelOf ((1/2 : ℚ) : WithTop ℚ) = RiskLevel.medium ∧
    riskLevelOf ((65/100 : ℚ) : WithTop ℚ) = RiskLevel.high :=
  risk_tier_thresholds [12000] 6000 1000 5000 (by simp)

/-- C4: a salary list summing to zero yields the insufficient-data result for
all non-negative housing and living-cost inputs, before any quotient is
formed (the insufficient-data result carries no numeric field), and the
housing and living-cost inputs have no effect on the result. -/
theorem zero_income_insufficient_data (salaries : List ℚ)
    (rent arnona living_costs rent2 arnona2 living2 : ℚ) (hsum : salaries.sum = 0)
    (hr : 0 ≤ rent) (ha : 0 ≤ arnona) (hl : 0 ≤ living_costs) :
    FinancialRiskAgent.run salaries rent arnona living_costs
        = RiskResult.insufficientData ∧
    FinancialRiskAgent.run salaries rent arnona living_costs
        = FinancialRiskAgent.run salaries rent2 arnona2 living2 := by
  have h1 : ∀ r a l : ℚ,
      FinancialRiskAgent.run salaries r a l = RiskResult.insufficientData := by
    intro r a l
    simp [FinancialRiskAgent.run, hsum]
  exact ⟨h1 _ _ _, (h1 _ _ _).trans (h1 _ _ _).symm⟩

/-- Witness for C4: two zero salaries, housing and living costs 6000, 1000,
5000 against 1, 2, 3. -/
theorem zero_income_insufficient_data_witness :
    FinancialRiskAgent.run [0, 0] 6000 1000 5000 = RiskResult.insufficientData ∧
    FinancialRiskAgent.run [0, 0] 6000 1000 5000 = FinancialRiskAgent.run [0, 0] 1 2 3 :=
  zero_income_insufficient_data [0, 0] 6000 1000 5000 1 2 3 (by simp)
    (by norm_num) (by norm_num) (by norm_num)

/-- C9: the risk result is invariant under any permutation of the salary
list, because the salaries enter the computation only through their sum. -/
theorem risk_invariant_under_permutation (s t : List ℚ)
    (rent arnona living_costs : ℚ) (hperm : s.Perm t) :
    FinancialRiskAgent.run s rent arnona living_costs
      = FinancialRiskAgent.run t rent arnona living_costs := by
  simp only [FinancialRiskAgent.run, hperm.sum_eq]

/-- Witness for C9 at the swap of a two-salary list. -/
theorem risk_invariant_under_permutation_witness :
    FinancialRiskAgent.run [1, 2] 6000 1000 5000
      = FinancialRiskAgent.run [2, 1] 6000 1000 5000 :=
  risk_invariant_under_permutation [1, 2] [2, 1] 6000 1000 5000 (List.Perm.swap 2 1 [])
